import Mathlib

/-!
# Verification development for the linkedin-roaster repository

Shallow embedding of the two components of the repository:

* `src/app/api/roast/route.ts` — the Next.js request handler (`POST`) with its
  module-level session cache (`cachedContext`, `savedStorageState`), the
  storage-state loader (`loadStorageState`) and the authenticated-context
  machinery (`getAuthenticatedContext`);
* the standalone session bootstrapper script (`saveLinkedInState`).

External effects (file system, browser automation, network) are modelled by an
environment record that fixes the outcome of each effectful step, and each
function additionally returns the list of observable effect events it performs,
in order.  Module-level mutable variables are threaded explicitly through a
`ModState` record.  JavaScript truthiness is modelled explicitly; `undefined`
is `Option.none`.
-/

/-- A fragment of JSON/JavaScript values sufficient for the data handled here
(storage-state objects, intercepted GraphQL payloads).  Objects are modelled
flat, with string-valued fields, which covers every payload the claims
exercise. -/
inductive JsValue where
  | jnull
  | jbool (b : Bool)
  | jnum (n : Int)
  | jstr (s : String)
  | jobj (fields : List (String × String))
deriving DecidableEq, Repr

/-- JavaScript truthiness of a value: `null`, `false`, `0` and `""` are falsy;
every object (even `{}`) is truthy. -/
def JsValue.truthy : JsValue → Bool
  | .jnull => false
  | .jbool b => b
  | .jnum n => n != 0
  | .jstr s => s != ""
  | .jobj _ => true

/-- Truthiness of an `object | undefined` variable (`undefined` is `none`). -/
def jsTruthyOpt : Option JsValue → Bool
  | none => false
  | some v => v.truthy

/-- Truthiness of a `string | undefined` environment variable: absent or empty
strings are falsy. -/
def jsTruthyStr : Option String → Bool
  | none => false
  | some s => s != ""

/-- JavaScript `String.prototype.includes`: substring containment. -/
def jsIncludes (s sub : String) : Bool :=
  decide (sub.data <:+: s.data)

/-- JavaScript `String.prototype.substring(0, n)`: the first `n` characters
(the whole string when it is shorter). -/
def jsSubstring (s : String) (n : Nat) : String :=
  String.mk (s.data.take n)

/-- Models `JSON.stringify(v, null, 2)` on the flat value fragment: pretty-printed
with two-space indentation, as the handler produces for the GraphQL payload. -/
def jsonStringify2 : JsValue → String
  | .jnull => "null"
  | .jbool b => cond b "true" "false"
  | .jnum n => toString n
  | .jstr s => "\"" ++ s ++ "\""
  | .jobj [] => "\x7b\x7d"
  | .jobj fs =>
      "\x7b\n"
        ++ String.intercalate ",\n"
            (fs.map (fun p => "  \"" ++ p.1 ++ "\": \"" ++ p.2 ++ "\""))
        ++ "\n\x7d"

/-- The module-level mutable state of `route.ts`:
`let cachedContext: any = null` (browser contexts are identified by `Nat` ids)
and `let savedStorageState: object | undefined = undefined`. -/
structure ModState where
  cachedContext : Option Nat
  savedStorageState : Option JsValue
deriving DecidableEq, Repr

/-- The cold-start module state: both variables unset. -/
def ModState.init : ModState := ⟨none, none⟩

/-- Environment for `loadStorageState`: the content of `linkedin_state.json`
(`none` when `fs.readFileSync` throws, i.e. the file is missing) and the
outcome of `JSON.parse` on a given content (`none` when parsing throws). -/
structure LoadEnv where
  fileContent : Option String
  parseFn : String → Option JsValue

/-- Result of one call to `loadStorageState`: the returned value (`none`
models returning `undefined`), the new value of `savedStorageState`, and how
many times `fs.readFileSync` was invoked during the call. -/
structure LoadResult where
  ret : Option JsValue
  state : Option JsValue
  reads : Nat
deriving DecidableEq, Repr

/-- The body of `loadStorageState` past the `if (savedStorageState)` guard:
read the file, parse it, cache and return the parsed object; on any exception
return `undefined` leaving the cache untouched.  One `readFileSync` call is
made in every execution of this body. -/
def loadAttempt (env : LoadEnv) (saved : Option JsValue) : LoadResult :=
  match env.fileContent with
  | none => ⟨none, saved, 1⟩
  | some content =>
      match env.parseFn content with
      | none => ⟨none, saved, 1⟩
      | some v => ⟨some v, some v, 1⟩

/-- Function `loadStorageState` from `route.ts`: return the cached object when the
`savedStorageState` variable is truthy, otherwise read and parse the state
file. -/
def loadStorageState (env : LoadEnv) (saved : Option JsValue) : LoadResult :=
  match saved with
  | some v => if v.truthy then ⟨some v, some v, 0⟩ else loadAttempt env saved
  | none => loadAttempt env saved

/-- Observable effect events, in the order the code performs them.  Shared by
the route handler and the bootstrapper script. -/
inductive Event where
  | validateNav (url : String)
  | launchBrowserEv (headless : Bool)
  | newContextEv (storageState : Option JsValue)
  | blockResources
  | newPage
  | gotoLogin
  | fillCreds (email password : String)
  | clickSubmit
  | waitFeedUrl
  | waitFeedSelector
  | closeContextAndBrowser
  | pageClose
  | gotoProfile (url : String)
  | waitGraphql
  | groqCall (userContent : String)
  | writeState (path : String)
  | closeBrowser
  | reportFailure (challenge : Bool)
deriving DecidableEq, Repr

/-- The errors `getAuthenticatedContext` can throw. -/
inductive GCError where
  | localSetupFailed
  | missingCredentials
  | gotoLoginFailed (msg : String)
  | checkpointDetected (url : String)
deriving DecidableEq, Repr

deriving instance DecidableEq for Except

/-- The message of each thrown error, as built in `route.ts`. -/
def GCError.message : GCError → String
  | .localSetupFailed => "Local environment setup failed."
  | .missingCredentials => "Missing LinkedIn credentials."
  | .gotoLoginFailed m => m
  | .checkpointDetected url =>
      "Login failed: Checkpoint detected at " ++ url
        ++ ". Check credentials or \x27linkedin_state.json\x27."

/-- Environment fixing the outcome of every effectful step of
`getAuthenticatedContext`. -/
structure GCEnv where
  /-- whether the `about:blank` probe navigation on the cached context succeeds -/
  cachedAlive : Bool
  /-- value of `process.env.NODE_ENV` -/
  nodeEnv : Option String
  /-- value of `process.env.NETLIFY` -/
  netlify : Option String
  /-- file-system and parsing outcomes for `loadStorageState` -/
  load : LoadEnv
  /-- whether `require('playwright')` succeeds in local development -/
  localRequireOk : Bool
  /-- value of `process.env.LINKEDIN_EMAIL` -/
  email : Option String
  /-- value of `process.env.LINKEDIN_PASSWORD` -/
  password : Option String
  /-- whether the navigation to the LinkedIn login page succeeds -/
  gotoLoginOk : Bool
  /-- message of the error thrown when that navigation fails -/
  gotoLoginErrMsg : String
  /-- whether `waitForURL(feed)` succeeds within its 20 s timeout -/
  feedUrlReached : Bool
  /-- whether the feed navigation selector appears within its 10 s timeout -/
  feedSelectorFound : Bool
  /-- value of `page.url()` when both waits have failed -/
  currentUrl : String
  /-- identity of the context a fresh `browser.newContext()` would create -/
  freshCtx : Nat

/-- Translation of `process.env.NODE_ENV === 'production' || process.env.NETLIFY === 'true'`. -/
def GCEnv.isProduction (env : GCEnv) : Bool :=
  env.nodeEnv == some "production" || env.netlify == some "true"

/-- Result of one call to `getAuthenticatedContext`: the returned context id or
thrown error, the new module state, and the effect events performed. -/
structure GCOut where
  result : Except GCError Nat
  state : ModState
  events : List Event
deriving Repr

/-- Steps of `getAuthenticatedContext` from the filling of the login form on:
fill both credential fields, submit, wait for the feed URL and, failing that,
for the feed navigation element; when neither appears close the context and
browser and throw the checkpoint error naming the current URL. -/
def loginSubmit (env : GCEnv) (s : ModState) (evs : List Event) : GCOut :=
  let evs := evs
    ++ [Event.fillCreds (env.email.getD "") (env.password.getD ""),
        Event.clickSubmit, Event.waitFeedUrl]
  if env.feedUrlReached then
    ⟨.ok env.freshCtx, { s with cachedContext := some env.freshCtx }, evs ++ [.pageClose]⟩
  else
    let evs := evs ++ [Event.waitFeedSelector]
    if env.feedSelectorFound then
      ⟨.ok env.freshCtx, { s with cachedContext := some env.freshCtx }, evs ++ [.pageClose]⟩
    else
      ⟨.error (.checkpointDetected env.currentUrl), s, evs ++ [.closeContextAndBrowser]⟩

/-- The manual-login fallback of `getAuthenticatedContext` (executed when no
truthy storage-state object was obtained): throw on missing credentials,
navigate to the login page when the fresh page (whose URL is `about:blank`)
is not already there, then fill and submit the form. -/
def manualLogin (env : GCEnv) (s : ModState) (evs : List Event) : GCOut :=
  if !(jsTruthyStr env.email) || !(jsTruthyStr env.password) then
    ⟨.error .missingCredentials, s, evs ++ [.closeContextAndBrowser]⟩
  else
    let onLoginPage := jsIncludes "about:blank" "login"
    let evs := if onLoginPage then evs else evs ++ [Event.gotoLogin]
    if !onLoginPage && !env.gotoLoginOk then
      ⟨.error (.gotoLoginFailed env.gotoLoginErrMsg), s, evs⟩
    else
      loginSubmit env s evs

/-- Steps 2–4 of `getAuthenticatedContext`: in production load the storage
state (updating `savedStorageState`), in local development require the local
playwright package, then launch a headless browser, create a context seeded
with the loaded storage-state object, open a page and install resource
blocking; when the storage-state object is truthy, trust it, cache the
context and return it without any login; otherwise fall back to manual
login. -/
def freshSession (env : GCEnv) (s : ModState) (evs : List Event) : GCOut :=
  let prod := env.isProduction
  let loaded :=
    if prod then
      let lr := loadStorageState env.load s.savedStorageState
      (lr.ret, { s with savedStorageState := lr.state })
    else
      ((none : Option JsValue), s)
  let storageStateObject := loaded.1
  let s := loaded.2
  if !prod && !env.localRequireOk then
    ⟨.error .localSetupFailed, s, evs⟩
  else
    let evs := evs
      ++ [Event.launchBrowserEv true, Event.newContextEv storageStateObject,
          Event.newPage, Event.blockResources]
    if jsTruthyOpt storageStateObject then
      ⟨.ok env.freshCtx, { s with cachedContext := some env.freshCtx }, evs ++ [.pageClose]⟩
    else
      manualLogin env s evs

/-- Function `getAuthenticatedContext` from `route.ts`: when a cached context
exists, validate it with a throwaway `about:blank` navigation and return it on
success; on failure reset the cache to `null` and establish a fresh session;
with no cached context establish a fresh session directly. -/
def getAuthenticatedContext (env : GCEnv) (s : ModState) : GCOut :=
  match s.cachedContext with
  | some c =>
      if env.cachedAlive then
        ⟨.ok c, s, [.validateNav "about:blank", .pageClose]⟩
      else
        freshSession env { s with cachedContext := none } [.validateNav "about:blank"]
  | none => freshSession env s []

/-- Environment for the scraping phase of `POST`: outcome of the profile
navigation, the intercepted GraphQL response (if one with status 200 arrived
within the 15 s wait and its body parsed), and — for stating the claimed
property — the text a visible-text extraction of the loaded profile page would
yield.  `route.ts` never reads `visibleBodyText`; it captures the GraphQL
payload instead. -/
structure ScrapeEnv where
  gotoOk : Bool
  gotoErrMsg : String
  graphqlResponse : Option JsValue
  graphqlErrMsg : String
  visibleBodyText : String

/-- Environment for the Groq completion call: whether `fetch` resolves,
whether `response.json()` parses, the value of `response.ok`, and the content
at `data.choices?.[0]?.message?.content` (absent levels give `none`). -/
structure GroqEnv where
  fetchOk : Bool
  jsonOk : Bool
  responseOk : Bool
  content : Option String

/-- Body of the HTTP response the handler produces: either `{ roast: ... }`
(with possibly-undefined content) or `{ error: ... }`. -/
inductive Body where
  | roastBody (content : Option String)
  | errBody (msg : String)
deriving DecidableEq, Repr

/-- An HTTP response: status code and JSON body. -/
structure HttpResponse where
  status : Nat
  body : Body
deriving DecidableEq, Repr

/-- Result of one `POST` invocation: the HTTP response, the new module state
and the effect events performed. -/
structure PostOut where
  response : HttpResponse
  state : ModState
  events : List Event
deriving Repr

/-- The fixed preamble of the user message sent to the completion API. -/
def groqPreamble : String := "Roast this LinkedIn profile based on this data:\n\n"

/-- The user-message content: the preamble followed by
`profileData.substring(0, 10000)`. -/
def groqUserContent (profileData : String) : String :=
  groqPreamble ++ jsSubstring profileData 10000

/-- Section 6 of `POST` (the Groq / AI logic): send the completion request;
on success answer 200 with `{ roast: content }`; when the fetch rejects, the
body fails to parse or `response.ok` is false, answer 500 with
`{ error: "Failed to generate roast." }`. -/
def groqPhase (env : GroqEnv) (profileData : String) (evs : List Event)
    (s : ModState) : PostOut :=
  let evs := evs ++ [Event.groqCall (groqUserContent profileData)]
  if env.fetchOk && env.jsonOk && env.responseOk then
    ⟨⟨200, .roastBody env.content⟩, s, evs⟩
  else
    ⟨⟨500, .errBody "Failed to generate roast."⟩, s, evs⟩

/-- Environment of a whole `POST` invocation. -/
structure PostEnv where
  gc : GCEnv
  scrape : ScrapeEnv
  groq : GroqEnv

/-- The 400 response built by the scraping `catch` block of `route.ts`. -/
def scrapeFailResponse (msg : String) : HttpResponse :=
  ⟨400, .errBody ("Scraping failed: " ++ msg ++ ". The browser likely ran out of memory.")⟩

/-- Function `POST` from `route.ts`: when the profile contains
`"linkedin.com"`, obtain an authenticated context, open a page, arm the
GraphQL response listener, navigate to the https-prefixed profile URL and
stringify the intercepted JSON payload as the profile data; any exception in
that phase resets the context cache and answers 400.  Otherwise the raw input
is the profile data.  Either way the profile data then goes to the Groq
phase. -/
def POST (env : PostEnv) (profile : String) (s : ModState) : PostOut :=
  if jsIncludes profile "linkedin.com" then
    let gc := getAuthenticatedContext env.gc s
    match gc.result with
    | .error e =>
        ⟨scrapeFailResponse e.message, { gc.state with cachedContext := none }, gc.events⟩
    | .ok _c =>
        let profileUrl := if profile.startsWith "http" then profile else "https://" ++ profile
        let evs := gc.events ++ [Event.newPage, Event.waitGraphql, Event.gotoProfile profileUrl]
        if !env.scrape.gotoOk then
          ⟨scrapeFailResponse env.scrape.gotoErrMsg, { gc.state with cachedContext := none }, evs⟩
        else
          match env.scrape.graphqlResponse with
          | none =>
              ⟨scrapeFailResponse env.scrape.graphqlErrMsg,
                { gc.state with cachedContext := none }, evs⟩
          | some j =>
              groqPhase env.groq (jsonStringify2 j) (evs ++ [.pageClose]) gc.state
  else
    groqPhase env.groq profile [] s

/-- Environment for the bootstrapper script `saveLinkedInState`. -/
structure SaveEnv where
  /-- value of `process.env.LINKEDIN_EMAIL` -/
  email : Option String
  /-- value of `process.env.LINKEDIN_PASSWORD` -/
  password : Option String
  /-- whether the navigation to the login page succeeds -/
  gotoLoginOk : Bool
  /-- whether `waitForURL(feed)` succeeds within its 60 s timeout -/
  feedReached : Bool
  /-- value of `page.url()` when the wait fails -/
  currentUrl : String

/-- JavaScript `env_var || default` for string environment variables. -/
def jsOrDefault (v : Option String) (d : String) : String :=
  match v with
  | some s => if s != "" then s else d
  | none => d

/-- The path the bootstrapper writes, `path.join(__dirname, 'linkedin_state.json')`,
modelled by its file name. -/
def stateFilePath : String := "linkedin_state.json"

/-- Function `saveLinkedInState` from the bootstrapper script, as the list of
effect events it performs: bail out on placeholder credentials; otherwise
launch a headful browser, navigate to the login page, fill and submit the
form, wait up to 60 s for the feed URL; write the storage state exactly when
the feed was reached, report a challenge or timeout otherwise, and in the
`finally` block close the browser whenever it was launched. -/
def saveLinkedInState (env : SaveEnv) : List Event :=
  let email := jsOrDefault env.email "your.actual.email@example.com"
  let password := jsOrDefault env.password "Your$Secret&Password123"
  if email == "YOUR_EMAIL_HERE" || password == "YOUR_PASSWORD_HERE" then
    []
  else
    let evs := [Event.launchBrowserEv false, Event.newContextEv none,
                Event.newPage, Event.gotoLogin]
    if !env.gotoLoginOk then
      evs ++ [.closeBrowser]
    else
      let evs := evs ++ [Event.fillCreds email password, Event.clickSubmit, Event.waitFeedUrl]
      if env.feedReached then
        evs ++ [.writeState stateFilePath, .closeBrowser]
      else
        evs ++ [.reportFailure (jsIncludes env.currentUrl "challenge"), .closeBrowser]

/-! ## Concrete sample environments (used by the witnesses) -/

/-- A plausible storage-state object as the bootstrapper would serialize. -/
def sampleStorage : JsValue := .jobj [("cookies", "li_at=tok")]

/-- A state file that exists and parses to `sampleStorage`. -/
def loadEnvOk : LoadEnv := ⟨some "filecontent", fun _ => some sampleStorage⟩

/-- A state file that exists but does not parse. -/
def loadEnvBad : LoadEnv := ⟨some "not json", fun _ => none⟩

/-- A production environment with a live cache probe, a loadable state file
and full credentials. -/
def gcEnvBase : GCEnv :=
  { cachedAlive := true
    nodeEnv := some "production"
    netlify := none
    load := loadEnvOk
    localRequireOk := true
    email := some "user@example.test"
    password := some "pw123456"
    gotoLoginOk := true
    gotoLoginErrMsg := "page.goto: Timeout 15000ms exceeded"
    feedUrlReached := true
    feedSelectorFound := false
    currentUrl := "https://www.linkedin.com/checkpoint/challenge/abc"
    freshCtx := 7 }

/-- Same environment but with an unloadable state file and no credentials. -/
def gcEnvNoCreds : GCEnv := { gcEnvBase with load := loadEnvBad, email := none }

/-- A successful bootstrapper environment: credentials set, login navigation
succeeds and the feed URL is reached within the wait. -/
def saveEnvOk : SaveEnv :=
  { email := some "user@example.test", password := some "pw123456",
    gotoLoginOk := true, feedReached := true,
    currentUrl := "https://www.linkedin.com/feed/" }

/-- A scraping environment in which every step succeeds. -/
def scrapeEnvOk : ScrapeEnv :=
  { gotoOk := true
    gotoErrMsg := "page.goto: Timeout 10000ms exceeded"
    graphqlResponse := some (.jobj [("firstName", "John")])
    graphqlErrMsg := "page.waitForResponse: Timeout 15000ms exceeded"
    visibleBodyText := "John Doe Software Engineer at Example Corp" }

/-- A completion call that succeeds with a generated roast. -/
def groqEnvOk : GroqEnv :=
  { fetchOk := true, jsonOk := true, responseOk := true,
    content := some "Your profile is a humble brag buffet." }

/-- A request environment in which everything succeeds. -/
def postEnvOk : PostEnv := { gc := gcEnvBase, scrape := scrapeEnvOk, groq := groqEnvOk }

/-- A request environment whose context acquisition throws. -/
def postEnvFail : PostEnv := { postEnvOk with gc := gcEnvNoCreds }

/-- A 10000-character profile text. -/
def longText : String := String.mk (List.replicate 10000 'a')

/-- A successful request whose intercepted payload stringifies to more than
10000 characters. -/
def postEnvLong : PostEnv :=
  { postEnvOk with scrape := { scrapeEnvOk with graphqlResponse := some (.jstr longText) } }

/-- The property claim C1 asserts of the handler, stated from the spec's
words: the profile data sent to the LLM is the visible text extracted from
the profile page (modelled by `ScrapeEnv.visibleBodyText`), i.e. the user
message is the preamble followed by (the first 10000 characters of) that
visible text. -/
def claimedVisibleTextForwarded (env : PostEnv) (profile : String) (s : ModState) : Prop :=
  Event.groqCall (groqPreamble ++ jsSubstring env.scrape.visibleBodyText 10000)
    ∈ (POST env profile s).events

/-! ## Helper lemmas about the effect traces -/

theorem jsIncludes_middle (a m b : String) : jsIncludes (a ++ m ++ b) m = true := by
  simp only [jsIncludes, decide_eq_true_eq]
  exact ⟨a.data, b.data, by simp [String.data_append]⟩

theorem loginSubmit_events_sub (env : GCEnv) (s : ModState) (evs : List Event) :
    ∀ e ∈ (loginSubmit env s evs).events,
      e ∈ evs ∨ e ∈ [Event.fillCreds (env.email.getD "") (env.password.getD ""),
        Event.clickSubmit, Event.waitFeedUrl, Event.waitFeedSelector,
        Event.closeContextAndBrowser, Event.pageClose] := by
  intro e he
  simp only [loginSubmit] at he
  cases hf : env.feedUrlReached <;> cases hs : env.feedSelectorFound <;>
    simp only [hf, hs, Bool.false_eq_true, if_false, if_true, List.append_assoc,
      List.mem_append, List.mem_cons, List.mem_singleton, List.not_mem_nil] at he ⊢ <;>
    tauto

theorem manualLogin_events_sub (env : GCEnv) (s : ModState) (evs : List Event) :
    ∀ e ∈ (manualLogin env s evs).events,
      e ∈ evs ∨ e ∈ [Event.gotoLogin,
        Event.fillCreds (env.email.getD "") (env.password.getD ""),
        Event.clickSubmit, Event.waitFeedUrl, Event.waitFeedSelector,
        Event.closeContextAndBrowser, Event.pageClose] := by
  intro e he
  have hab : jsIncludes "about:blank" "login" = false := by decide
  simp only [manualLogin, hab, Bool.not_false, Bool.true_and, Bool.false_eq_true,
    if_false] at he
  by_cases hc : (!jsTruthyStr env.email || !jsTruthyStr env.password) = true
  · simp only [hc, if_true, List.mem_append, List.mem_singleton] at he
    rcases he with he | he
    · exact Or.inl he
    · subst he; simp
  · simp only [hc, Bool.false_eq_true, if_false] at he
    by_cases hg : env.gotoLoginOk = true
    · simp only [hg, Bool.not_true, Bool.false_eq_true, if_false] at he
      have h2 := loginSubmit_events_sub env s (evs ++ [Event.gotoLogin]) e he
      simp only [List.mem_append, List.mem_cons, List.mem_singleton,
        List.not_mem_nil, or_false] at h2 ⊢
      tauto
    · have hg' : env.gotoLoginOk = false := by
        cases h : env.gotoLoginOk
        · rfl
        · exact absurd h hg
      simp only [hg', Bool.not_false, if_true, List.mem_append,
        List.mem_singleton] at he
      rcases he with h3 | h3
      · exact Or.inl h3
      · subst h3; simp

theorem freshSession_events_sub (env : GCEnv) (s : ModState) (evs : List Event) :
    ∀ e ∈ (freshSession env s evs).events,
      e ∈ evs
      ∨ e = Event.newContextEv (if env.isProduction then
              (loadStorageState env.load s.savedStorageState).ret else none)
      ∨ e ∈ [Event.launchBrowserEv true, Event.newPage, Event.blockResources,
             Event.gotoLogin,
             Event.fillCreds (env.email.getD "") (env.password.getD ""),
             Event.clickSubmit, Event.waitFeedUrl, Event.waitFeedSelector,
             Event.closeContextAndBrowser, Event.pageClose] := by
  intro e he
  cases hp : env.isProduction
  · simp only [freshSession, hp, Bool.not_false, Bool.true_and, Bool.false_eq_true,
      if_false] at he
    cases hl : env.localRequireOk
    · simp only [hl, Bool.not_false, if_true] at he
      exact Or.inl he
    · simp only [hl, Bool.not_true, Bool.false_eq_true, if_false, jsTruthyOpt] at he
      have h2 := manualLogin_events_sub env s
        (evs ++ [Event.launchBrowserEv true, Event.newContextEv none,
                 Event.newPage, Event.blockResources]) e he
      simp only [List.mem_append, List.mem_cons, List.mem_singleton,
        List.not_mem_nil, or_false] at h2 ⊢
      tauto
  · simp only [freshSession, hp, Bool.not_true, Bool.false_and, Bool.false_eq_true,
      if_false, if_true] at he
    cases ht : jsTruthyOpt (loadStorageState env.load s.savedStorageState).ret
    · simp only [ht, Bool.false_eq_true, if_false] at he
      have h2 := manualLogin_events_sub env
        { s with savedStorageState := (loadStorageState env.load s.savedStorageState).state }
        (evs ++ [Event.launchBrowserEv true,
                 Event.newContextEv (loadStorageState env.load s.savedStorageState).ret,
                 Event.newPage, Event.blockResources]) e he
      simp only [List.mem_append, List.mem_cons, List.mem_singleton,
        List.not_mem_nil, or_false] at h2 ⊢
      tauto
    · simp only [ht, if_true, List.mem_append, List.mem_cons, List.mem_singleton,
        List.not_mem_nil, or_false] at he ⊢
      tauto

theorem getAuthenticatedContext_events_sub (env : GCEnv) (s : ModState) :
    ∀ e ∈ (getAuthenticatedContext env s).events,
      e = Event.newContextEv (if env.isProduction then
            (loadStorageState env.load s.savedStorageState).ret else none)
      ∨ e ∈ [Event.validateNav "about:blank", Event.launchBrowserEv true,
             Event.newPage, Event.blockResources, Event.gotoLogin,
             Event.fillCreds (env.email.getD "") (env.password.getD ""),
             Event.clickSubmit, Event.waitFeedUrl, Event.waitFeedSelector,
             Event.closeContextAndBrowser, Event.pageClose] := by
  intro e he
  cases hsc : s.cachedContext with
  | none =>
      simp only [getAuthenticatedContext, hsc] at he
      have h2 := freshSession_events_sub env s [] e he
      simp only [List.not_mem_nil, false_or, List.mem_cons, List.mem_singleton,
        List.not_mem_nil, or_false] at h2 ⊢
      tauto
  | some c =>
      simp only [getAuthenticatedContext, hsc] at he
      cases ha : env.cachedAlive
      · simp only [ha, Bool.false_eq_true, if_false] at he
        have h2 := freshSession_events_sub env { s with cachedContext := none }
          [Event.validateNav "about:blank"] e he
        simp only [List.mem_cons, List.mem_singleton, List.not_mem_nil, or_false] at h2 ⊢
        tauto
      · simp only [ha, if_true, List.mem_cons, List.mem_singleton,
          List.not_mem_nil, or_false] at he ⊢
        tauto

theorem getAuthenticatedContext_no_groq (env : GCEnv) (s : ModState) (u : String) :
    Event.groqCall u ∉ (getAuthenticatedContext env s).events := by
  intro h
  have h2 := getAuthenticatedContext_events_sub env s _ h
  rcases h2 with h2 | h2 <;> simp at h2

theorem loginSubmit_mem (env : GCEnv) (s : ModState) (evs : List Event) (e : Event)
    (he : e ∈ evs) : e ∈ (loginSubmit env s evs).events := by
  simp only [loginSubmit]
  cases hf : env.feedUrlReached <;> cases hs : env.feedSelectorFound <;>
    simp [hf, hs, List.mem_append, he]

theorem manualLogin_mem (env : GCEnv) (s : ModState) (evs : List Event) (e : Event)
    (he : e ∈ evs) : e ∈ (manualLogin env s evs).events := by
  have hab : jsIncludes "about:blank" "login" = false := by decide
  simp only [manualLogin, hab, Bool.not_false, Bool.true_and, Bool.false_eq_true,
    if_false]
  by_cases hc : (!jsTruthyStr env.email || !jsTruthyStr env.password) = true
  · simp [hc, List.mem_append, he]
  · simp only [hc, Bool.false_eq_true, if_false]
    cases hg : env.gotoLoginOk
    · simp [hg, List.mem_append, he]
    · simp only [hg, Bool.not_true, Bool.false_eq_true, if_false]
      exact loginSubmit_mem _ _ _ _ (by simp [List.mem_append, he])

theorem loginSubmit_fill_mem (env : GCEnv) (s : ModState) (evs : List Event) :
    Event.fillCreds (env.email.getD "") (env.password.getD "")
      ∈ (loginSubmit env s evs).events := by
  simp only [loginSubmit]
  cases hf : env.feedUrlReached <;> cases hs : env.feedSelectorFound <;>
    simp [hf, hs, List.mem_append]

theorem freshSession_launch_mem (env : GCEnv) (s : ModState) (evs : List Event)
    (hp : env.isProduction = true) :
    Event.launchBrowserEv true ∈ (freshSession env s evs).events := by
  simp only [freshSession, hp, Bool.not_true, Bool.false_and, Bool.false_eq_true,
    if_false, if_true]
  cases ht : jsTruthyOpt (loadStorageState env.load s.savedStorageState).ret
  · simp only [ht, Bool.false_eq_true, if_false]
    exact manualLogin_mem _ _ _ _ (by simp)
  · simp [ht, List.mem_append]

theorem freshSession_fill_mem (env : GCEnv) (s : ModState) (evs : List Event)
    (hp : env.isProduction = true)
    (hload : (loadStorageState env.load s.savedStorageState).ret = none)
    (he : jsTruthyStr env.email = true) (hpw : jsTruthyStr env.password = true)
    (hg : env.gotoLoginOk = true) :
    Event.fillCreds (env.email.getD "") (env.password.getD "")
      ∈ (freshSession env s evs).events := by
  have hab : jsIncludes "about:blank" "login" = false := by decide
  simp only [freshSession, hp, Bool.not_true, Bool.false_and, Bool.false_eq_true,
    if_false, if_true, hload, jsTruthyOpt, manualLogin, hab, he, hpw, hg,
    Bool.not_false, Bool.true_and, Bool.or_self]
  exact loginSubmit_fill_mem _ _ _

theorem freshSession_skip_login (env : GCEnv) (s : ModState) (evs : List Event) (v : JsValue)
    (hp : env.isProduction = true)
    (hload : (loadStorageState env.load s.savedStorageState).ret = some v)
    (ht : v.truthy = true) :
    freshSession env s evs =
      ⟨.ok env.freshCtx,
       { s with cachedContext := some env.freshCtx,
                savedStorageState := (loadStorageState env.load s.savedStorageState).state },
       evs ++ [Event.launchBrowserEv true, Event.newContextEv (some v),
               Event.newPage, Event.blockResources, Event.pageClose]⟩ := by
  simp [freshSession, hp, hload, jsTruthyOpt, ht]

theorem freshSession_missing_creds (env : GCEnv) (s : ModState) (evs : List Event)
    (hp : env.isProduction = true)
    (hload : (loadStorageState env.load s.savedStorageState).ret = none)
    (hcred : (!jsTruthyStr env.email || !jsTruthyStr env.password) = true) :
    freshSession env s evs =
      ⟨.error .missingCredentials,
       { s with savedStorageState := (loadStorageState env.load s.savedStorageState).state },
       evs ++ [Event.launchBrowserEv true, Event.newContextEv none, Event.newPage,
               Event.blockResources, Event.closeContextAndBrowser]⟩ := by
  simp [freshSession, manualLogin, hp, hload, jsTruthyOpt, hcred]

theorem freshSession_checkpoint (env : GCEnv) (s : ModState) (evs : List Event)
    (hp : env.isProduction = true)
    (hload : (loadStorageState env.load s.savedStorageState).ret = none)
    (he : jsTruthyStr env.email = true) (hpw : jsTruthyStr env.password = true)
    (hg : env.gotoLoginOk = true)
    (hfu : env.feedUrlReached = false) (hfs : env.feedSelectorFound = false) :
    freshSession env s evs =
      ⟨.error (.checkpointDetected env.currentUrl),
       { s with savedStorageState := (loadStorageState env.load s.savedStorageState).state },
       evs ++ [Event.launchBrowserEv true, Event.newContextEv none, Event.newPage,
               Event.blockResources, Event.gotoLogin,
               Event.fillCreds (env.email.getD "") (env.password.getD ""),
               Event.clickSubmit, Event.waitFeedUrl, Event.waitFeedSelector,
               Event.closeContextAndBrowser]⟩ := by
  have hab : jsIncludes "about:blank" "login" = false := by decide
  simp [freshSession, manualLogin, loginSubmit, hp, hload, jsTruthyOpt, he, hpw,
    hg, hfu, hfs, hab]

/-! ## State-preservation helpers -/

theorem loginSubmit_savedStorage (env : GCEnv) (s : ModState) (evs : List Event) :
    (loginSubmit env s evs).state.savedStorageState = s.savedStorageState := by
  simp only [loginSubmit]
  cases hf : env.feedUrlReached <;> cases hs : env.feedSelectorFound <;> simp [hf, hs]

theorem manualLogin_savedStorage (env : GCEnv) (s : ModState) (evs : List Event) :
    (manualLogin env s evs).state.savedStorageState = s.savedStorageState := by
  have hab : jsIncludes "about:blank" "login" = false := by decide
  simp only [manualLogin, hab, Bool.not_false, Bool.true_and, Bool.false_eq_true,
    if_false]
  by_cases hc : (!jsTruthyStr env.email || !jsTruthyStr env.password) = true
  · simp [hc]
  · simp only [hc, Bool.false_eq_true, if_false]
    cases hg : env.gotoLoginOk
    · simp
    · simp only [hg, Bool.not_true, Bool.false_eq_true, if_false]
      exact loginSubmit_savedStorage _ _ _

theorem freshSession_nonprod_savedStorage (env : GCEnv) (s : ModState) (evs : List Event)
    (hp : env.isProduction = false) :
    (freshSession env s evs).state.savedStorageState = s.savedStorageState := by
  simp only [freshSession, hp, Bool.not_false, Bool.true_and, Bool.false_eq_true,
    if_false]
  cases hl : env.localRequireOk
  · simp
  · simp only [Bool.not_true, Bool.false_eq_true, if_false, jsTruthyOpt]
    exact manualLogin_savedStorage _ _ _

/-! ## Claim theorems -/

/-- C3: the session cache is the single module-level variable `cachedContext`
(`ModState.cachedContext`, holding at most one context).  On a call with a
non-null cached context, the context is validated by a throwaway navigation
(a fresh page navigated to `about:blank`): on success the cached context is
returned unchanged and no browser is launched; on failure the cache variable
is reset to `null` and the call proceeds to establish a fresh browser and
context (in production a browser launch is performed). -/
theorem C3_session_cache (env : GCEnv) (s : ModState) (c : Nat)
    (h : s.cachedContext = some c) :
    (env.cachedAlive = true →
      getAuthenticatedContext env s =
        ⟨.ok c, s, [.validateNav "about:blank", .pageClose]⟩
      ∧ ∀ b, Event.launchBrowserEv b ∉ (getAuthenticatedContext env s).events)
    ∧ (env.cachedAlive = false →
      getAuthenticatedContext env s =
        freshSession env { s with cachedContext := none } [.validateNav "about:blank"]
      ∧ (env.isProduction = true →
          Event.launchBrowserEv true ∈ (getAuthenticatedContext env s).events)) := by
  constructor
  · intro ha
    constructor
    · simp [getAuthenticatedContext, h, ha]
    · intro b hb
      simp [getAuthenticatedContext, h, ha] at hb
  · intro ha
    constructor
    · simp [getAuthenticatedContext, h, ha]
    · intro hp
      simp only [getAuthenticatedContext, h, ha, Bool.false_eq_true, if_false]
      exact freshSession_launch_mem _ _ _ hp

/-- Witness for C3: with a live cached context `3`, the call returns it
unchanged after the probe navigation. -/
theorem C3_session_cache_witness :
    getAuthenticatedContext gcEnvBase ⟨some 3, none⟩ =
      ⟨.ok 3, ⟨some 3, none⟩, [.validateNav "about:blank", .pageClose]⟩ :=
  ((C3_session_cache gcEnvBase ⟨some 3, none⟩ 3 rfl).1 rfl).1

/-- C4: whenever the storage state is successfully loaded (a truthy
storage-state object, which can only happen in production), the login flow is
skipped entirely: the context is created seeded with the loaded object,
cached, and returned, with no login navigation and no credential fill; and
outside production the state loader is never consulted (`savedStorageState`
is untouched and every created context is seeded with `undefined`). -/
theorem C4_storage_state_skips_login (env : GCEnv) (s : ModState)
    (hc : s.cachedContext = none) :
    (∀ v : JsValue, env.isProduction = true →
      (loadStorageState env.load s.savedStorageState).ret = some v →
      v.truthy = true →
      getAuthenticatedContext env s =
        ⟨.ok env.freshCtx,
         { s with cachedContext := some env.freshCtx,
                  savedStorageState := (loadStorageState env.load s.savedStorageState).state },
         [Event.launchBrowserEv true, Event.newContextEv (some v),
          Event.newPage, Event.blockResources, Event.pageClose]⟩)
    ∧ (env.isProduction = false →
      (getAuthenticatedContext env s).state.savedStorageState = s.savedStorageState
      ∧ ∀ w : JsValue, Event.newContextEv (some w) ∉ (getAuthenticatedContext env s).events) := by
  constructor
  · intro v hp hload ht
    simp only [getAuthenticatedContext, hc]
    rw [freshSession_skip_login env s [] v hp hload ht]
    simp
  · intro hp
    constructor
    · simp only [getAuthenticatedContext, hc]
      exact freshSession_nonprod_savedStorage env s [] hp
    · intro w hw
      have h2 := getAuthenticatedContext_events_sub env s _ hw
      simp [hp] at h2

/-- Witness for C4: production cold start with a parseable state file skips
login and returns a context seeded with the parsed object. -/
theorem C4_storage_state_skips_login_witness :
    getAuthenticatedContext gcEnvBase ModState.init =
      ⟨.ok gcEnvBase.freshCtx,
       ⟨some gcEnvBase.freshCtx,
        (loadStorageState gcEnvBase.load ModState.init.savedStorageState).state⟩,
       [Event.launchBrowserEv true, Event.newContextEv (some sampleStorage),
        Event.newPage, Event.blockResources, Event.pageClose]⟩ :=
  (C4_storage_state_skips_login gcEnvBase ModState.init rfl).1 sampleStorage
    (by decide) (by decide) (by decide)

/-- C2: when the storage state fails to load on a (production) call that
reaches session establishment, the handler falls back to interactive login:
with credentials in the environment it fills the login form with them, and if
neither the feed URL nor the feed navigation element appears it detects a
checkpoint, closes the context and browser, and throws an error whose message
names the current URL; with credentials absent it closes the context and
browser and throws `Missing LinkedIn credentials.` without any form fill. -/
theorem C2_login_fallback (env : GCEnv) (s : ModState)
    (hc : s.cachedContext = none)
    (hp : env.isProduction = true)
    (hload : (loadStorageState env.load s.savedStorageState).ret = none) :
    ((!jsTruthyStr env.email || !jsTruthyStr env.password) = true →
       (getAuthenticatedContext env s).result = .error .missingCredentials
       ∧ GCError.message .missingCredentials = "Missing LinkedIn credentials."
       ∧ Event.closeContextAndBrowser ∈ (getAuthenticatedContext env s).events
       ∧ ∀ a b, Event.fillCreds a b ∉ (getAuthenticatedContext env s).events)
    ∧ (jsTruthyStr env.email = true → jsTruthyStr env.password = true →
       env.gotoLoginOk = true →
       Event.fillCreds (env.email.getD "") (env.password.getD "")
         ∈ (getAuthenticatedContext env s).events
       ∧ (env.feedUrlReached = false → env.feedSelectorFound = false →
          (getAuthenticatedContext env s).result
            = .error (.checkpointDetected env.currentUrl)
          ∧ Event.closeContextAndBrowser ∈ (getAuthenticatedContext env s).events
          ∧ jsIncludes (GCError.message (.checkpointDetected env.currentUrl))
              env.currentUrl = true)) := by
  have hga : getAuthenticatedContext env s = freshSession env s [] := by
    simp [getAuthenticatedContext, hc]
  constructor
  · intro hcred
    rw [hga, freshSession_missing_creds env s [] hp hload hcred]
    refine ⟨rfl, rfl, by simp, ?_⟩
    intro a b hmem
    simp at hmem
  · intro he hpw hg
    constructor
    · rw [hga]
      exact freshSession_fill_mem env s [] hp hload he hpw hg
    · intro hfu hfs
      rw [hga, freshSession_checkpoint env s [] hp hload he hpw hg hfu hfs]
      refine ⟨rfl, by simp, ?_⟩
      simp only [GCError.message]
      exact jsIncludes_middle "Login failed: Checkpoint detected at " env.currentUrl
        ". Check credentials or \x27linkedin_state.json\x27."

/-- Witness for C2: a production call with an unparseable state file and no
credentials in the environment throws `Missing LinkedIn credentials.`. -/
theorem C2_login_fallback_witness :
    (getAuthenticatedContext gcEnvNoCreds ModState.init).result
      = .error .missingCredentials :=
  ((C2_login_fallback gcEnvNoCreds ModState.init rfl (by decide) (by decide)).1
    (by decide)).1

/-- Every run of the loader body performs exactly one `readFileSync` call. -/
theorem loadAttempt_reads (env : LoadEnv) (saved : Option JsValue) :
    (loadAttempt env saved).reads = 1 := by
  unfold loadAttempt
  split
  · rfl
  · split <;> rfl

/-- A returned object is also the newly cached object. -/
theorem loadAttempt_state_of_ret (env : LoadEnv) (saved : Option JsValue) (v : JsValue)
    (h : (loadAttempt env saved).ret = some v) :
    (loadAttempt env saved).state = some v := by
  unfold loadAttempt at h ⊢
  cases hf : env.fileContent with
  | none => simp only [hf] at h; simp at h
  | some c =>
      simp only [hf] at h ⊢
      cases hp : env.parseFn c with
      | none => simp only [hp] at h; simp at h
      | some w => simp only [hp] at h ⊢; simp_all

/-- C10 as stated is false: with a state file that exists but does not parse,
nothing is cached and each of two successive calls reads the file, so the
file is not read at most once per process. -/
theorem C10_counterexample :
    ¬ ((loadStorageState loadEnvBad none).reads
        + (loadStorageState loadEnvBad (loadStorageState loadEnvBad none).state).reads
        ≤ 1) := by
  decide

/-- C10 amended: the loader memoizes successful truthy loads: a cold call that
returns a (truthy) parsed object performs one file read and caches the
object, and the following call returns the same object with zero file
reads. -/
theorem C10_memoization (env : LoadEnv) (v : JsValue)
    (h1 : (loadStorageState env none).ret = some v) (ht : v.truthy = true) :
    (loadStorageState env none).reads = 1
    ∧ (loadStorageState env none).state = some v
    ∧ loadStorageState env (loadStorageState env none).state = ⟨some v, some v, 0⟩ := by
  have heq : loadStorageState env none = loadAttempt env none := rfl
  rw [heq] at h1 ⊢
  have hstate := loadAttempt_state_of_ret env none v h1
  refine ⟨loadAttempt_reads env none, hstate, ?_⟩
  rw [hstate]
  simp [loadStorageState, ht]

/-- Witness for C10 (amended): with a parseable state file the second call is
served from the cache with no read. -/
theorem C10_memoization_witness :
    loadStorageState loadEnvOk (loadStorageState loadEnvOk none).state
      = ⟨some sampleStorage, some sampleStorage, 0⟩ :=
  (C10_memoization loadEnvOk sampleStorage (by decide) (by decide)).2.2

/-- C5: past the placeholder-credential guard, the bootstrapper launches a
headful browser and drives the login flow; it writes the storage state to the
state file exactly when the feed URL is reached within the 60-second wait; on
a challenge or timeout it returns without writing, reporting which of the two
occurred; and whenever a browser was launched it is closed before the script
ends. -/
theorem C5_bootstrapper (env : SaveEnv) :
    ((jsOrDefault env.email "your.actual.email@example.com" == "YOUR_EMAIL_HERE"
      || jsOrDefault env.password "Your$Secret&Password123" == "YOUR_PASSWORD_HERE") = true →
        saveLinkedInState env = [])
    ∧ ((jsOrDefault env.email "your.actual.email@example.com" == "YOUR_EMAIL_HERE"
      || jsOrDefault env.password "Your$Secret&Password123" == "YOUR_PASSWORD_HERE") = false →
        (Event.writeState stateFilePath ∈ saveLinkedInState env ↔
          env.gotoLoginOk = true ∧ env.feedReached = true)
        ∧ Event.launchBrowserEv false ∈ saveLinkedInState env
        ∧ Event.closeBrowser ∈ saveLinkedInState env
        ∧ (env.gotoLoginOk = true →
            Event.fillCreds (jsOrDefault env.email "your.actual.email@example.com")
              (jsOrDefault env.password "Your$Secret&Password123")
              ∈ saveLinkedInState env)
        ∧ (env.gotoLoginOk = true → env.feedReached = false →
            Event.reportFailure (jsIncludes env.currentUrl "challenge")
              ∈ saveLinkedInState env)) := by
  constructor
  · intro hg
    simp [saveLinkedInState, hg]
  · intro hg
    cases hgo : env.gotoLoginOk <;> cases hfr : env.feedReached <;>
      simp [saveLinkedInState, hg, hgo, hfr]

/-- Witness for C5: with real credentials and the feed reached, the state is
written and the browser closed. -/
theorem C5_bootstrapper_witness :
    Event.writeState stateFilePath ∈ saveLinkedInState saveEnvOk
    ∧ Event.closeBrowser ∈ saveLinkedInState saveEnvOk :=
  ⟨((C5_bootstrapper saveEnvOk).2 (by decide)).1.mpr ⟨rfl, rfl⟩,
    ((C5_bootstrapper saveEnvOk).2 (by decide)).2.2.1⟩

/-! ## POST path lemmas and sample request environments -/

/-- On the scrape path, when context acquisition, navigation and the GraphQL
interception all succeed, `POST` is the Groq phase applied to the
pretty-printed payload, with the scraping events in source order. -/
theorem POST_scrape_success (env : PostEnv) (s : ModState) (profile : String)
    (c : Nat) (j : JsValue)
    (hprof : jsIncludes profile "linkedin.com" = true)
    (hc : (getAuthenticatedContext env.gc s).result = Except.ok c)
    (hgoto : env.scrape.gotoOk = true)
    (hj : env.scrape.graphqlResponse = some j) :
    POST env profile s =
      ⟨(if (env.groq.fetchOk && env.groq.jsonOk && env.groq.responseOk) = true
          then ⟨200, .roastBody env.groq.content⟩
          else ⟨500, .errBody "Failed to generate roast."⟩),
       (getAuthenticatedContext env.gc s).state,
       (getAuthenticatedContext env.gc s).events
         ++ [Event.newPage, Event.waitGraphql,
             Event.gotoProfile (if profile.startsWith "http" then profile
               else "https://" ++ profile),
             Event.pageClose,
             Event.groqCall (groqUserContent (jsonStringify2 j))]⟩ := by
  simp only [POST, hprof, if_true, hc, hgoto, Bool.not_true, Bool.false_eq_true,
    if_false, hj, groqPhase]
  cases hok : (env.groq.fetchOk && env.groq.jsonOk && env.groq.responseOk) <;>
    simp [hok]

/-- C9: a request whose profile does not contain `linkedin.com` performs no
scraping at all — no browser activity of any kind, only the completion call —
and the raw input itself is the profile data, of which at most the first
10000 characters are forwarded after the preamble. -/
theorem C9_plain_text_no_browser (env : PostEnv) (s : ModState) (profile : String)
    (h : jsIncludes profile "linkedin.com" = false) :
    POST env profile s =
      ⟨(if (env.groq.fetchOk && env.groq.jsonOk && env.groq.responseOk) = true
          then ⟨200, .roastBody env.groq.content⟩
          else ⟨500, .errBody "Failed to generate roast."⟩),
        s, [Event.groqCall (groqPreamble ++ jsSubstring profile 10000)]⟩
    ∧ (∀ b, Event.launchBrowserEv b ∉ (POST env profile s).events)
    ∧ (jsSubstring profile 10000).length ≤ 10000 := by
  have hpost : POST env profile s = groqPhase env.groq profile [] s := by
    simp [POST, h]
  refine ⟨?_, ?_, ?_⟩
  · rw [hpost]
    simp only [groqPhase, groqUserContent, List.nil_append]
    cases hok : (env.groq.fetchOk && env.groq.jsonOk && env.groq.responseOk) <;>
      simp [hok]
  · intro b hb
    rw [hpost] at hb
    simp only [groqPhase] at hb
    cases hok : (env.groq.fetchOk && env.groq.jsonOk && env.groq.responseOk) <;>
      simp [hok] at hb
  · simp only [jsSubstring, String.length_mk, List.length_take]
    exact min_le_left _ _

/-- Witness for C9: a plain-text profile goes straight to the completion
call. -/
theorem C9_plain_text_no_browser_witness :
    POST postEnvOk "plain bio text" ModState.init =
      ⟨⟨200, Body.roastBody (some "Your profile is a humble brag buffet.")⟩,
        ModState.init,
        [Event.groqCall (groqPreamble ++ jsSubstring "plain bio text" 10000)]⟩ := by
  have h := (C9_plain_text_no_browser postEnvOk ModState.init "plain bio text"
    (by decide)).1
  simpa [postEnvOk, groqEnvOk] using h

/-- C7: whenever the completion call runs (plain-text request, or scrape path
with all scraping steps succeeding), a successful call (fetch resolves, body
parses, `response.ok`) yields a 200 response whose `roast` field is the
generated message content, and any failure yields a 500 response with body
`{ error: "Failed to generate roast." }`. -/
theorem C7_groq_result (env : PostEnv) (s : ModState) (profile : String)
    (hready : jsIncludes profile "linkedin.com" = false
      ∨ (jsIncludes profile "linkedin.com" = true
         ∧ (∃ c, (getAuthenticatedContext env.gc s).result = Except.ok c)
         ∧ env.scrape.gotoOk = true
         ∧ (∃ j, env.scrape.graphqlResponse = some j))) :
    ((env.groq.fetchOk && env.groq.jsonOk && env.groq.responseOk) = true →
      (POST env profile s).response = ⟨200, .roastBody env.groq.content⟩)
    ∧ ((env.groq.fetchOk && env.groq.jsonOk && env.groq.responseOk) = false →
      (POST env profile s).response = ⟨500, .errBody "Failed to generate roast."⟩) := by
  rcases hready with h | ⟨h, ⟨c, hc⟩, hgoto, ⟨j, hj⟩⟩
  · constructor <;> intro hok <;> simp [POST, h, groqPhase, hok]
  · rw [POST_scrape_success env s profile c j h hc hgoto hj]
    constructor <;> intro hok <;> simp [hok]

/-- Witness for C7: the fully successful request returns the generated
roast with status 200. -/
theorem C7_groq_result_witness :
    (POST postEnvOk "linkedin.com/in/johndoe" ModState.init).response
      = ⟨200, Body.roastBody (some "Your profile is a humble brag buffet.")⟩ := by
  have h := (C7_groq_result postEnvOk ModState.init "linkedin.com/in/johndoe"
    (Or.inr ⟨by decide, ⟨7, by decide⟩, rfl, ⟨JsValue.jobj [("firstName", "John")], rfl⟩⟩)).1 rfl
  simpa [postEnvOk, groqEnvOk] using h

/-- C8: whenever the scraping phase throws — context acquisition,
navigation, or interception/extraction — the handler resets the context
cache to `null`, answers 400 with a message built around the failure reason,
and never calls the completion endpoint. -/
theorem C8_scrape_failure (env : PostEnv) (s : ModState) (profile : String)
    (hprof : jsIncludes profile "linkedin.com" = true) :
    (∀ e, (getAuthenticatedContext env.gc s).result = .error e →
       (POST env profile s).response = scrapeFailResponse e.message
       ∧ (POST env profile s).state.cachedContext = none
       ∧ jsIncludes ("Scraping failed: " ++ e.message
            ++ ". The browser likely ran out of memory.") e.message = true
       ∧ ∀ u, Event.groqCall u ∉ (POST env profile s).events)
    ∧ (∀ c, (getAuthenticatedContext env.gc s).result = Except.ok c →
       env.scrape.gotoOk = false →
       (POST env profile s).response = scrapeFailResponse env.scrape.gotoErrMsg
       ∧ (POST env profile s).state.cachedContext = none
       ∧ ∀ u, Event.groqCall u ∉ (POST env profile s).events)
    ∧ (∀ c, (getAuthenticatedContext env.gc s).result = Except.ok c →
       env.scrape.gotoOk = true → env.scrape.graphqlResponse = none →
       (POST env profile s).response = scrapeFailResponse env.scrape.graphqlErrMsg
       ∧ (POST env profile s).state.cachedContext = none
       ∧ ∀ u, Event.groqCall u ∉ (POST env profile s).events) := by
  refine ⟨?_, ?_, ?_⟩
  · intro e he
    refine ⟨by simp [POST, hprof, he], by simp [POST, hprof, he],
      jsIncludes_middle _ _ _, ?_⟩
    intro u hu
    simp only [POST, hprof, if_true, he] at hu
    exact getAuthenticatedContext_no_groq env.gc s u hu
  · intro c hc hgoto
    refine ⟨by simp [POST, hprof, hc, hgoto], by simp [POST, hprof, hc, hgoto], ?_⟩
    intro u hu
    simp only [POST, hprof, if_true, hc, hgoto, Bool.not_false, if_true,
      List.mem_append, List.mem_cons, List.mem_singleton, List.not_mem_nil,
      or_false] at hu
    rcases hu with hu | hu
    · exact getAuthenticatedContext_no_groq env.gc s u hu
    · simp at hu
  · intro c hc hgoto hresp
    refine ⟨by simp [POST, hprof, hc, hgoto, hresp],
      by simp [POST, hprof, hc, hgoto, hresp], ?_⟩
    intro u hu
    simp only [POST, hprof, if_true, hc, hgoto, Bool.not_true, Bool.false_eq_true,
      if_false, hresp, List.mem_append, List.mem_cons, List.mem_singleton,
      List.not_mem_nil, or_false] at hu
    rcases hu with hu | hu
    · exact getAuthenticatedContext_no_groq env.gc s u hu
    · simp at hu

/-- Witness for C8: the missing-credentials throw surfaces as a 400 scrape
failure. -/
theorem C8_scrape_failure_witness :
    (POST postEnvFail "linkedin.com/in/x" ModState.init).response
      = scrapeFailResponse (GCError.message .missingCredentials) :=
  ((C8_scrape_failure postEnvFail ModState.init "linkedin.com/in/x" (by decide)).1
    GCError.missingCredentials (by decide)).1

/-! ## C6 and C1: what is actually forwarded to the LLM -/

/-- Length of the JavaScript substring: the minimum of the cut and the
original length. -/
theorem jsSubstring_length (s : String) (n : Nat) :
    (jsSubstring s n).length = min n s.length := by
  unfold jsSubstring
  rw [String.length_mk, List.length_take]
  rfl

/-- Truncation is strict on this payload: the forwarded message differs from
the preamble followed by the full profile data. -/
theorem truncation_strict :
    groqPreamble ++ jsSubstring (jsonStringify2 (JsValue.jstr longText)) 10000
      ≠ groqPreamble ++ jsonStringify2 (JsValue.jstr longText) := by
  intro h
  have hlen := congrArg String.length h
  have hq : ("\"" : String).length = 1 := rfl
  have hlt : longText.length = 10000 := by
    show (String.mk (List.replicate 10000 'a')).length = 10000
    rw [String.length_mk, List.length_replicate]
  have hx : (jsonStringify2 (JsValue.jstr longText)).length = 10002 := by
    show ("\"" ++ longText ++ "\"").length = 10002
    rw [String.length_append, String.length_append, hq, hlt]
  rw [String.length_append, String.length_append, jsSubstring_length, hx] at hlen
  omega

/-- C6 as stated is false: on this concrete request the intercepted profile
data has 10002 characters, and the message actually sent to the completion
endpoint is not the preamble followed by that profile data (it is truncated
to the first 10000 characters), so the forwarded text does not equal the
extracted text. -/
theorem C6_counterexample :
    Event.groqCall (groqPreamble ++ jsonStringify2 (JsValue.jstr longText))
      ∉ (POST postEnvLong "linkedin.com/in/long" ModState.init).events := by
  intro hmem
  rw [POST_scrape_success postEnvLong ModState.init "linkedin.com/in/long" 7
    (JsValue.jstr longText) (by decide) (by decide) rfl rfl] at hmem
  rcases List.mem_append.mp hmem with h | h
  · exact getAuthenticatedContext_no_groq _ _ _ h
  · simp only [List.mem_cons, List.mem_singleton, List.not_mem_nil, or_false] at h
    rcases h with h | h | h | h | h
    · exact Event.noConfusion h
    · exact Event.noConfusion h
    · exact Event.noConfusion h
    · exact Event.noConfusion h
    · have h2 : groqPreamble ++ jsonStringify2 (JsValue.jstr longText)
          = groqUserContent (jsonStringify2 (JsValue.jstr longText)) :=
        congrArg (fun e => match e with
          | Event.groqCall u => u
          | _ => "") h
      exact truncation_strict h2.symm

/-- C6 amended: the user message forwarded to the completion endpoint is the
fixed preamble followed by the first 10000 characters of the profile data —
the stringified intercepted payload on the scrape path, the raw input
otherwise — and profile data of at most 10000 characters is forwarded in
full. -/
theorem C6_forwarded_text (env : PostEnv) (s : ModState) (profile : String) :
    (jsIncludes profile "linkedin.com" = false →
      Event.groqCall (groqPreamble ++ jsSubstring profile 10000)
        ∈ (POST env profile s).events)
    ∧ (∀ j c, jsIncludes profile "linkedin.com" = true →
        (getAuthenticatedContext env.gc s).result = Except.ok c →
        env.scrape.gotoOk = true → env.scrape.graphqlResponse = some j →
        Event.groqCall (groqPreamble ++ jsSubstring (jsonStringify2 j) 10000)
          ∈ (POST env profile s).events)
    ∧ (∀ d : String, d.length ≤ 10000 → jsSubstring d 10000 = d) := by
  refine ⟨?_, ?_, ?_⟩
  · intro h
    cases hok : (env.groq.fetchOk && env.groq.jsonOk && env.groq.responseOk) <;>
      simp [POST, h, groqPhase, groqUserContent, hok]
  · intro j c hprof hc hgoto hj
    rw [POST_scrape_success env s profile c j hprof hc hgoto hj]
    simp [groqUserContent]
  · intro d hd
    unfold jsSubstring
    rw [List.take_of_length_le hd]

/-- Witness for C6 (amended): a short plain-text profile is forwarded in
full after the preamble. -/
theorem C6_forwarded_text_witness :
    Event.groqCall (groqPreamble ++ jsSubstring "short bio" 10000)
      ∈ (POST postEnvOk "short bio" ModState.init).events :=
  (C6_forwarded_text postEnvOk ModState.init "short bio").1 (by decide)

/-- C1 as stated is false for the route handler: `route.ts` does not extract
the visible text of the profile page — it captures a GraphQL API response
and forwards the pretty-printed JSON payload.  On this concrete request the
visible page text is never forwarded. -/
theorem C1_counterexample :
    ¬ claimedVisibleTextForwarded postEnvOk "linkedin.com/in/johndoe" ModState.init := by
  unfold claimedVisibleTextForwarded
  decide

/-- C1 amended: for every LinkedIn-profile request on which scraping
succeeds, the handler obtains an authenticated context, arms the GraphQL
response listener, navigates a new page to the https-prefixed profile URL,
and uses the pretty-printed JSON payload of the intercepted status-200
GraphQL response as the profile data sent to the LLM completion API. -/
theorem C1_scrape_and_roast (env : PostEnv) (s : ModState) (profile : String)
    (c : Nat) (j : JsValue)
    (hprof : jsIncludes profile "linkedin.com" = true)
    (hc : (getAuthenticatedContext env.gc s).result = Except.ok c)
    (hgoto : env.scrape.gotoOk = true)
    (hj : env.scrape.graphqlResponse = some j) :
    Event.gotoProfile (if profile.startsWith "http" then profile
        else "https://" ++ profile) ∈ (POST env profile s).events
    ∧ Event.waitGraphql ∈ (POST env profile s).events
    ∧ Event.groqCall (groqUserContent (jsonStringify2 j))
        ∈ (POST env profile s).events := by
  rw [POST_scrape_success env s profile c j hprof hc hgoto hj]
  simp

/-- Witness for C1 (amended): the fully successful request navigates to the
https-prefixed URL and forwards the stringified payload. -/
theorem C1_scrape_and_roast_witness :
    Event.groqCall (groqUserContent (jsonStringify2 (JsValue.jobj [("firstName", "John")])))
      ∈ (POST postEnvOk "linkedin.com/in/johndoe" ModState.init).events :=
  (C1_scrape_and_roast postEnvOk ModState.init "linkedin.com/in/johndoe" 7
    (JsValue.jobj [("firstName", "John")]) (by decide) (by decide) rfl rfl).2.2
